import Mathlib

/-!
Verification of the `cfgclasses` specification compiler against a shallow
embedding of the source (package `cfgclasses/`, plus the older top-level
variant `argspec.py` for the `nargs`-override logic that only exists there).

The embedding translates:
  * `cfgclasses/argspec.py` — field classification (`_specitem_from_field`),
    kwargs emission (`SpecificationItem.get_kwargs` and the subclass
    overrides), value extraction (`extract_value_from_namespace`), and the
    recursive group compiler (`Specification.from_class`,
    `construct_from_namespace`);
  * `cfgclasses/arghelper.py` — the `arg()` field builder;
  * `cfgclasses/validation.py` — the validator walk
    (`validate_post_argparse`);
  * `cfgclasses/configclass.py` — `parse_args_with_submodes`;
  * `argspec.py` (old variant) — `ArgOpts.from_field`, namespaced `V1`.

Python values are embedded in `Val` (with the sentinels `NotSpecified` and
`dataclasses.MISSING` made explicit), declared types in `Ty`.  The external
argument-parsing engine (argparse) is out of scope of the spec; its
documented behaviour for an omitted argument is modelled in
`argparseOmittedValue` / `toggleValue`.
-/

/-- Embedding of the Python runtime values this program manipulates.
`vnone` is Python `None`; `notSpecified` embeds the `NotSpecified` sentinel
class of `argspec.py`; `missing` embeds `dataclasses.MISSING`. -/
inductive Val where
  | vnone : Val
  | vbool (b : Bool) : Val
  | vint (n : Int) : Val
  | vstr (s : String) : Val
  | vlist (l : List Val) : Val
  | vobj (cls : String) (fields : List (String × Val)) : Val
  | notSpecified : Val
  | missing : Val

/-- Embeds `NotSpecified.__eq__` of `cfgclasses/argspec.py`: a value compares
equal to `NotSpecified()` exactly when it is itself a `NotSpecified`. -/
def eqNotSpecified : Val → Bool
  | .notSpecified => true
  | _ => false

/-- Embeds the Python identity test `value is True` (`True` is a singleton). -/
def isTrueVal : Val → Bool
  | .vbool true => true
  | _ => false

/-- Embeds the declared (typing-module) type expressions that the classifier
inspects: plain types, `list[T]` and `Union[...]`; `noneType` is
`type(None)`. -/
inductive Ty where
  | int : Ty
  | float : Ty
  | str : Ty
  | bool : Ty
  | path : Ty
  | noneType : Ty
  | list (t : Ty) : Ty
  | union (args : List Ty) : Ty

/-- Result of `typing.get_origin`: only `list` and `Union` have an origin in
the fragment the source inspects. -/
inductive TyOrigin where
  | list : TyOrigin
  | union : TyOrigin
deriving DecidableEq, Repr

/-- Embeds `typing.get_origin`. -/
def get_origin : Ty → Option TyOrigin
  | .list _ => some .list
  | .union _ => some .union
  | _ => none

/-- Embeds `typing.get_args`. -/
def get_args : Ty → List Ty
  | .list t => [t]
  | .union args => args
  | _ => []

/-- Embeds the membership test `type(None) in type_args`. -/
def containsNoneType : List Ty → Bool
  | [] => false
  | .noneType :: _ => true
  | _ :: rest => containsNoneType rest

/-- Embeds the Python equality test `field_type == bool`. -/
def isBoolTy : Ty → Bool
  | .bool => true
  | _ => false

/-- Embeds `_is_optional_type` of `cfgclasses/argspec.py`: origin is `Union`,
exactly two type arguments, one of which is `type(None)`. -/
def is_optional_type (t : Ty) : Bool :=
  decide (get_origin t = some .union) && decide ((get_args t).length = 2)
    && containsNoneType (get_args t)

/-- Embeds `identity_transform` of `cfgclasses/argspec.py`. -/
def identity_transform (v : Val) : Val := v

/-- Embeds `ConfigOpts` of `cfgclasses/argspec.py` (the data stored in a
dataclass field's metadata).  `default` holds the pre-transform CLI default
written by `arg()`; it defaults to `NotSpecified()`. -/
structure ConfigOpts where
  help : String := ""
  metavar : Option String := none
  choices : Option (List Val) := none
  transform : Option (Val → Val) := none
  transform_type : Option Ty := none
  default : Val := .notSpecified

/-- Embeds the metadata entry under `CFG_METADATA_FIELD` for a leaf field:
either a plain `ConfigOpts` (`positional = true`) or a
`NonPositionalConfigOpts` carrying `optnames` (`positional = false`). -/
structure LeafMeta where
  positional : Bool
  opts : ConfigOpts
  optnames : List String

/-- Embeds a `dataclasses.Field` for a leaf (non-group) field: declared name
and type, the dataclass-level default / default factory (`none` embeds
`dataclasses.MISSING`; a factory is embedded by the value it produces), and
the optional `CFG_METADATA_FIELD` metadata entry. -/
structure PyField where
  name : String
  type : Ty
  default : Option Val := none
  default_factory : Option Val := none
  metadata : Option LeafMeta := none

/-- Embeds `_default_from_field` of `cfgclasses/argspec.py`. -/
def default_from_field (f : PyField) : Val :=
  match f.default with
  | some d => d
  | none =>
    match f.default_factory with
    | some v => v
    | none => .notSpecified

/-- The concrete `SpecificationItem` subclass chosen by
`_specitem_from_field`. -/
inductive ItemKind where
  | standard : ItemKind
  | list : ItemKind
  | optionalItem : ItemKind
  | boolItem : ItemKind
  | positional : ItemKind
  | listPositional : ItemKind
deriving DecidableEq, Repr

/-- Embeds a constructed `SpecificationItem` (any subclass, discriminated by
`kind`): argument name, argparse converter type, help, metavar, choices,
default, post-parse transform and (for non-positional items) the explicit
alternative option names. -/
structure SpecItem where
  kind : ItemKind
  name : String
  type : Ty
  help : String
  metavar : Option String
  choices : Option (List Val)
  default : Val
  transform : Val → Val
  optnames : List String

/-- Embeds the `get_argtype` class methods: the converter type is the field
type itself except for list and Optional shapes, where it is the first type
argument. -/
def get_argtype (kind : ItemKind) (field_type : Ty) : Ty :=
  match kind with
  | .list | .listPositional | .optionalItem => (get_args field_type).headD field_type
  | _ => field_type

/-- Embeds Python `name.replace("_", "-")`: with a single-character pattern
this is the character-wise substitution. -/
def replace_underscores (s : String) : String :=
  String.mk (s.data.map (fun c => if c = '_' then '-' else c))

/-- Embeds `StandardSpecItem.get_optnames` / `PositionalSpecItem.get_optnames`:
positional items are addressed by their bare name; non-positional items by
their explicit optnames, or by the default `--name` spelling (underscores
replaced by hyphens) when none were given. -/
def get_optnames (it : SpecItem) : List String :=
  match it.kind with
  | .positional | .listPositional => [it.name]
  | _ =>
    match it.optnames with
    | [] => ["--" ++ replace_underscores it.name]
    | l => l

/-- Embeds the keyword-argument dictionary handed to
`argparse.add_argument`; a `none` field embeds an absent key. -/
structure Kwargs where
  dest : Option String := none
  type : Option Ty := none
  help : String := ""
  metavar : Option String := none
  choices : Option (List Val) := none
  default : Option Val := none
  required : Option Bool := none
  nargs : Option String := none
  action : Option String := none

/-- Embeds `SpecificationItem.get_kwargs` (the base-class body): dest, type
and help always; metavar and choices when present; and the declared default
when it is specified (`self.default != NotSpecified()`), else
`required = True`. -/
def base_kwargs (it : SpecItem) : Kwargs :=
  { dest := some it.name
    type := some it.type
    help := it.help
    metavar := it.metavar
    choices := it.choices
    default := if eqNotSpecified it.default then none else some it.default
    required := if eqNotSpecified it.default then some true else none }

/-- Embeds `get_kwargs` including every subclass override:
list items add `nargs="+"`; optional items force `required=False`; boolean
items pick `store_true`/`store_false` (`store_false` exactly when the
default `is True`), delete `type` and delete `required`; positional items
delete `dest` and `required`. -/
def get_kwargs (it : SpecItem) : Kwargs :=
  match it.kind with
  | .standard => base_kwargs it
  | .list => { base_kwargs it with nargs := some "+" }
  | .optionalItem => { base_kwargs it with required := some false }
  | .boolItem =>
    { base_kwargs it with
        action := some (if isTrueVal it.default then "store_false" else "store_true")
        type := none
        required := none }
  | .positional => { base_kwargs it with dest := none, required := none }
  | .listPositional =>
    { base_kwargs it with dest := none, required := none, nargs := some "+" }

/-- Embeds `field.metadata.get(CFG_METADATA_FIELD, NonPositionalConfigOpts())`
of `_specitem_from_field`: the field metadata, defaulting to an empty
`NonPositionalConfigOpts`. -/
def field_meta (f : PyField) : LeafMeta :=
  f.metadata.getD { positional := false, opts := {}, optnames := [] }

/-- Embeds `field_type = metadata.transform_type or field.type` of
`_specitem_from_field`. -/
def eff_field_type (f : PyField) : Ty :=
  (field_meta f).opts.transform_type.getD f.type

/-- Embeds the `from_field` constructors shared by every `SpecificationItem`
subclass: name, converter type (via `get_argtype`), help, metavar, choices,
the dataclass default (via `_default_from_field`) and the transform
(identity when none is declared). -/
def mk_specitem (f : PyField) (kind : ItemKind) (optnames : List String) : SpecItem :=
  { kind := kind
    name := f.name
    type := get_argtype kind (eff_field_type f)
    help := (field_meta f).opts.help
    metavar := (field_meta f).opts.metavar
    choices := (field_meta f).opts.choices
    default := default_from_field f
    transform := (field_meta f).opts.transform.getD identity_transform
    optnames := optnames }

/-- Embeds `_specitem_from_field` of `cfgclasses/argspec.py`: dispatch on the
metadata flavour and the shape of the effective field type; a positional
field whose type has an origin other than `list` is a `TypeError`. -/
def specitem_from_field (f : PyField) : Except String SpecItem :=
  if (field_meta f).positional = false then
    if get_origin (eff_field_type f) = some .list then
      .ok (mk_specitem f .list (field_meta f).optnames)
    else if is_optional_type (eff_field_type f) then
      .ok (mk_specitem f .optionalItem (field_meta f).optnames)
    else if isBoolTy (eff_field_type f) then
      .ok (mk_specitem f .boolItem (field_meta f).optnames)
    else
      .ok (mk_specitem f .standard (field_meta f).optnames)
  else
    if get_origin (eff_field_type f) = some .list then
      .ok (mk_specitem f .listPositional [])
    else if get_origin (eff_field_type f) = none then
      .ok (mk_specitem f .positional [])
    else
      .error "TypeError: cannot use this type with a positional argument"

/-- Model of the external engine (argparse, out of scope per spec section 6)
for a registered non-positional argument whose flag is omitted from argv:
a required argument is a usage failure; otherwise the value is the
registered default, or the action-implied default (`store_true` gives
`False`, `store_false` gives `True`), or Python `None`. -/
def argparseOmittedValue (k : Kwargs) : Except String Val :=
  if k.required = some true then
    .error "usage failure: the following arguments are required"
  else
    .ok (match k.default with
      | some d => d
      | none =>
        match k.action with
        | some "store_true" => .vbool false
        | some "store_false" => .vbool true
        | _ => .vnone)

/-- Embeds `SpecificationItem.extract_value_from_namespace` composed with the
engine model: the constructed field value when the flag is omitted is the
item transform applied to the engine-supplied namespace value. -/
def fieldOmittedValue (it : SpecItem) : Except String Val :=
  (argparseOmittedValue (get_kwargs it)).map it.transform

/-- Model of the external engine for a registered boolean toggle
(`store_true` / `store_false` action): presence of the flag stores the
action value; absence yields the registered default, or the action-implied
default when no default key was registered. -/
def toggleValue (k : Kwargs) (present : Bool) : Val :=
  match k.action with
  | some "store_false" => if present then .vbool false else (k.default.getD (.vbool true))
  | _ => if present then .vbool true else (k.default.getD (.vbool false))

example : is_optional_type (.union [.int, .noneType]) = true := by rfl
example : is_optional_type (.union [.int, .str]) = false := by rfl
example :
    (specitem_from_field { name := "x", type := .union [.int, .noneType] }).map
      SpecItem.kind = .ok .optionalItem := by rfl
example :
    (specitem_from_field
        { name := "x", type := .union [.int, .noneType], default := some (.vint 3) }).map
      fieldOmittedValue = .ok (.ok (.vint 3)) := by rfl

/-- Parameters of the `arg()` field builder of `cfgclasses/arghelper.py`
(`none` embeds `dataclasses.MISSING` for `default` / `default_factory`;
a factory is embedded by the value it produces). -/
structure ArgParams where
  helpstr : String
  optnames : List String := []
  positional : Bool := false
  metavar : Option String := none
  choices : Option (List Val) := none
  default : Option Val := none
  default_factory : Option Val := none
  transform : Option (Val → Val) := none
  transform_type : Option Ty := none

/-- Embeds `arg()` of `cfgclasses/arghelper.py`: compute the pre-transform
CLI default, store it in the metadata `ConfigOpts` (a plain positional
`ConfigOpts` when `positional` — the supplied `optnames` are not passed on —
else a `NonPositionalConfigOpts` with the `optnames`), and create the
dataclass field whose own default / default factory is the transform applied
to the declared default.  The dataclass name and declared type come from the
enclosing dataclass declaration. -/
def arg (p : ArgParams) (name : String) (declared : Ty) : PyField :=
  let cli_default : Val :=
    match p.default with
    | some d => d
    | none =>
      match p.default_factory with
      | some v => v
      | none => .missing
  let opts : ConfigOpts :=
    { help := p.helpstr
      metavar := p.metavar
      choices := p.choices
      transform := p.transform
      transform_type := p.transform_type
      default := cli_default }
  let md : LeafMeta :=
    if p.positional then { positional := true, opts := opts, optnames := [] }
    else { positional := false, opts := opts, optnames := p.optnames }
  let applyT : Val → Val := fun v =>
    match p.transform with
    | some t => t v
    | none => v
  match p.default with
  | some d =>
    { name := name, type := declared, default := some (applyT d), metadata := some md }
  | none =>
    match p.default_factory with
    | some v =>
      { name := name, type := declared, default_factory := some (applyT v)
        metadata := some md }
    | none => { name := name, type := declared, metadata := some md }

/-- A concrete non-idempotent transform used as test input: adds one to an
integer value. -/
def incInt : Val → Val
  | .vint n => .vint (n + 1)
  | v => v

namespace V1

/-- Embeds `ArgOpts` of the old top-level `argspec.py`: each attribute
defaults to the `ArgSpecNotSpecified` sentinel, embedded as `none`. -/
structure ArgOpts where
  default : Option Val := none
  required : Option Bool := none
  metavar : Option String := none
  choices : Option (List Val) := none
  action : Option String := none
  type : Option Ty := none
  nargs : Option String := none

/-- Embeds a `dataclasses.Field` as consumed by the old `ArgOpts.from_field`:
name, declared type, dataclass default / default factory (factory embedded by
its produced value), and the metadata keys that `from_field` reads
(`metavar`, `choices`, `nargs`). -/
structure Field where
  name : String
  type : Ty
  default : Option Val := none
  default_factory : Option Val := none
  metaMetavar : Option String := none
  metaChoices : Option (List Val) := none
  metaNargs : Option String := none

/-- Embeds the type-classification chain of the old `ArgOpts.from_field`:
a boolean not defaulting to `True` gets `store_true`; a list gets
`nargs="+"` and the element type; a `Union` is accepted only in the Optional
shape, setting `required=False`, otherwise a `TypeError`; anything else
passes the type through for argparse to deal with. -/
def classify_field (f : Field) : Except String ArgOpts :=
  if isBoolTy f.type
      && !(match f.default with | some v => isTrueVal v | none => false) then
    .ok { action := some "store_true" }
  else if get_origin f.type = some .list then
    .ok { nargs := some "+", type := some ((get_args f.type).headD f.type) }
  else if get_origin f.type = some .union then
    if decide ((get_args f.type).length = 2) && containsNoneType (get_args f.type) then
      .ok { type := some ((get_args f.type).headD f.type), required := some false }
    else
      .error "TypeError: cannot handle Union of these types"
  else
    .ok { type := some f.type }

/-- Embeds the default chain of the old `ArgOpts.from_field`: the dataclass
default, else the factory value, else the argument becomes required. -/
def apply_default_chain (f : Field) (o : ArgOpts) : ArgOpts :=
  match f.default with
  | some d => { o with default := some d }
  | none =>
    match f.default_factory with
    | some v => { o with default := some v }
    | none => { o with required := some true }

/-- Embeds the metadata copy of the old `ArgOpts.from_field`: `metavar` and
`choices` are read from the field metadata. -/
def apply_metadata (f : Field) (o : ArgOpts) : ArgOpts :=
  { o with metavar := f.metaMetavar, choices := f.metaChoices }

/-- Embeds the `nargs` override of the old `ArgOpts.from_field`: when the
classification set `nargs` (list kind) a metadata `nargs` replaces it;
otherwise a metadata `nargs` is a `TypeError`. -/
def apply_nargs_override (f : Field) (o : ArgOpts) : Except String ArgOpts :=
  match o.nargs with
  | some cur => .ok { o with nargs := some ((f.metaNargs).getD cur) }
  | none =>
    match f.metaNargs with
    | some _ => .error "TypeError: cannot override nargs for a non-list type"
    | none => .ok o

/-- Embeds `ArgOpts.from_field` of the old top-level `argspec.py`: classify
the declared type, fill in default / required, copy the metadata, and apply
the `nargs` override. -/
def ArgOpts.from_field (f : Field) : Except String ArgOpts :=
  match classify_field f with
  | .error e => .error e
  | .ok o1 => apply_nargs_override f (apply_metadata f (apply_default_chain f o1))

end V1

example :
    V1.ArgOpts.from_field { name := "xs", type := .list .int, metaNargs := some "*" }
      = .ok { nargs := some "*", type := some .int, required := some true } := by rfl
example :
    V1.ArgOpts.from_field { name := "n", type := .int, metaNargs := some "*" }
      = .error "TypeError: cannot override nargs for a non-list type" := by rfl

lemma eqNotSpecified_iff (v : Val) : eqNotSpecified v = true ↔ v = .notSpecified := by
  cases v <;> simp [eqNotSpecified]

lemma is_optional_origin (t : Ty) (h : is_optional_type t = true) :
    get_origin t = some .union := by
  unfold is_optional_type at h
  simp only [Bool.and_eq_true, decide_eq_true_eq] at h
  exact h.1.1

lemma origin_union_not_bool (t : Ty) (h : get_origin t = some .union) :
    isBoolTy t = false := by
  cases t <;> simp_all [get_origin, isBoolTy]

/-- C1 (amended): for every compiled non-positional field whose effective
declared type is Optional-of-T and which declares no value transform, the
item is classified Optional, the registration is never required
(`required=False` unconditionally), and omitting the flag from argv yields
the declared default when one is given and the absence value `None`
otherwise. -/
theorem c1_optional_omission_yields_default (f : PyField)
    (hpos : (field_meta f).positional = false)
    (htr : (field_meta f).opts.transform = none)
    (hopt : is_optional_type (eff_field_type f) = true) :
    ∃ it, specitem_from_field f = .ok it ∧ it.kind = .optionalItem ∧
      (get_kwargs it).required = some false ∧
      fieldOmittedValue it =
        .ok (if eqNotSpecified (default_from_field f) then Val.vnone
             else default_from_field f) := by
  have ho := is_optional_origin _ hopt
  refine ⟨mk_specitem f .optionalItem (field_meta f).optnames, ?_, rfl, rfl, ?_⟩
  · unfold specitem_from_field
    simp [hpos, ho, hopt]
  · unfold fieldOmittedValue argparseOmittedValue get_kwargs base_kwargs mk_specitem
    simp [htr, identity_transform, Except.map]
    cases h : eqNotSpecified (default_from_field f) <;> simp [h]

/-- Concrete Optional-of-int field declaring the default `3`. -/
def c1Field : PyField :=
  { name := "x", type := .union [.int, .noneType], default := some (.vint 3) }

/-- C1 counterexample: an Optional-of-int field with declared default `3`
compiles, and omitting its flag yields `3`, not the absence value `None` —
the omission outcome is not independent of the declared default. -/
theorem c1_counterexample :
    (specitem_from_field c1Field).map fieldOmittedValue = .ok (.ok (.vint 3)) ∧
    Val.vint 3 ≠ Val.vnone :=
  ⟨rfl, fun h => nomatch h⟩

/-- Concrete Optional-of-str field with no declared default. -/
def c1WField : PyField :=
  { name := "w", type := .union [.str, .noneType]
    metadata := some { positional := false, opts := {}, optnames := [] } }

/-- Witness for `c1_optional_omission_yields_default` at a concrete
Optional field with no declared default. -/
theorem c1_witness :
    ∃ it, specitem_from_field c1WField = .ok it ∧ it.kind = .optionalItem ∧
      (get_kwargs it).required = some false ∧
      fieldOmittedValue it =
        .ok (if eqNotSpecified (default_from_field c1WField) then Val.vnone
             else default_from_field c1WField) :=
  c1_optional_omission_yields_default c1WField rfl rfl rfl

/-- Concrete field built by `arg()` with declared default `0`, transform
"add one" and transform type `int`. -/
def c2Field : PyField :=
  arg { helpstr := "h", default := some (.vint 0), transform := some incInt
        transform_type := some .int } "x" .int

/-- C2 (evaluation at the failing input): for a field declared with
transform "add one" and default `0`, the registration hands the external
engine the post-transform default `1` (not the pre-transform `0`), and
omitting the flag constructs `2` — the transform is applied twice, not once
(`transform 0 = 1` would be the once-applied value). -/
theorem c2_default_transformed_twice :
    (specitem_from_field c2Field).map
        (fun it => ((get_kwargs it).default, fieldOmittedValue it))
      = .ok (some (.vint 1), .ok (.vint 2)) ∧
    some (Val.vint 1) ≠ some (Val.vint 0) ∧
    (Except.ok (Val.vint 2) : Except String Val) ≠ .ok (Val.vint 1) := by
  refine ⟨rfl, ?_, ?_⟩ <;> simp [incInt]

/-- C3: for every compiled non-positional boolean field with no transform
and a declared default that is absent or boolean, the item is the boolean
toggle: no converter type is registered, the action is `store_true` unless
the default is `True` (then `store_false`), and over both presence and
absence of the flag the constructed value is exactly the declared default
(`False` when absent) or its negation — never a third value. -/
theorem c3_bool_toggle (f : PyField) (b : Bool)
    (hpos : (field_meta f).positional = false)
    (htt : (field_meta f).opts.transform_type = none)
    (htr : (field_meta f).opts.transform = none)
    (hty : f.type = .bool)
    (hd : default_from_field f = .notSpecified ∨ default_from_field f = .vbool b) :
    ∃ it, specitem_from_field f = .ok it ∧ it.kind = .boolItem ∧
      (get_kwargs it).type = none ∧
      (get_kwargs it).action =
        some (if isTrueVal (default_from_field f) then "store_false" else "store_true") ∧
      ∀ present : Bool,
        it.transform (toggleValue (get_kwargs it) present)
          = .vbool (xor present (isTrueVal (default_from_field f))) := by
  have hft : eff_field_type f = .bool := by
    simp [eff_field_type, htt, hty]
  refine ⟨mk_specitem f .boolItem (field_meta f).optnames, ?_, rfl, rfl, rfl, ?_⟩
  · unfold specitem_from_field
    simp [hpos, hft, get_origin, is_optional_type, get_args, containsNoneType, isBoolTy]
  · intro present
    rcases hd with hd | hd
    · simp [get_kwargs, base_kwargs, mk_specitem, toggleValue, hd, htr,
        identity_transform, isTrueVal, eqNotSpecified]
      cases present <;> rfl
    · cases b <;>
        simp [get_kwargs, base_kwargs, mk_specitem, toggleValue, hd, htr,
          identity_transform, isTrueVal, eqNotSpecified] <;>
        cases present <;> rfl

/-- Concrete boolean field with declared default `True`. -/
def c3WField : PyField :=
  { name := "negflag", type := .bool, default := some (.vbool true)
    metadata := some { positional := false, opts := {}, optnames := [] } }

/-- Witness for `c3_bool_toggle` at a boolean field defaulting to `True`. -/
theorem c3_witness :
    ∃ it, specitem_from_field c3WField = .ok it ∧ it.kind = .boolItem ∧
      (get_kwargs it).type = none ∧
      (get_kwargs it).action =
        some (if isTrueVal (default_from_field c3WField) then "store_false"
              else "store_true") ∧
      ∀ present : Bool,
        it.transform (toggleValue (get_kwargs it) present)
          = .vbool (xor present (isTrueVal (default_from_field c3WField))) :=
  c3_bool_toggle c3WField true rfl rfl rfl rfl (Or.inr rfl)

/-- Concrete non-positional field declared as `Union[int, str]`, a union
shape that is not Optional-of-T. -/
def c4Field : PyField := { name := "u", type := .union [.int, .str] }

/-- C4 counterexample: the non-positional field declared `Union[int, str]`
is NOT rejected at compile time — it compiles to a standard item whose
converter type is the unsupported union shape itself, passed through to
parse time. -/
theorem c4_counterexample :
    (specitem_from_field c4Field).map (fun it => (it.kind, it.type))
      = .ok (.standard, .union [.int, .str]) ∧
    (specitem_from_field c4Field).isOk = true :=
  ⟨rfl, rfl⟩

/-- C4 (amended): a union-shaped effective type raises a build-time
`TypeError` only for positional fields; for non-positional fields a union
shape that is not Optional-of-T compiles to a standard item whose converter
is the union shape itself (reaching parse time). -/
theorem c4_union_shapes (f : PyField) :
    ((field_meta f).positional = true →
      get_origin (eff_field_type f) = some .union →
      specitem_from_field f =
        .error "TypeError: cannot use this type with a positional argument") ∧
    ((field_meta f).positional = false →
      get_origin (eff_field_type f) = some .union →
      is_optional_type (eff_field_type f) = false →
      specitem_from_field f = .ok (mk_specitem f .standard (field_meta f).optnames) ∧
      (mk_specitem f .standard (field_meta f).optnames).type = eff_field_type f) := by
  constructor
  · intro hpos hun
    unfold specitem_from_field
    simp [hpos, hun]
  · intro hpos hun hnopt
    have hb := origin_union_not_bool _ hun
    constructor
    · unfold specitem_from_field
      simp [hpos, hun, hnopt, hb]
    · simp [mk_specitem, get_argtype]

/-- Concrete positional field declared `Union[int, str]`. -/
def c4PosField : PyField :=
  { name := "p", type := .union [.int, .str]
    metadata := some { positional := true, opts := {}, optnames := [] } }

/-- Witness for `c4_union_shapes`: the positional union field raises, the
non-positional one compiles as a standard item. -/
theorem c4_witness :
    specitem_from_field c4PosField =
      .error "TypeError: cannot use this type with a positional argument" ∧
    (specitem_from_field c4Field =
        .ok (mk_specitem c4Field .standard (field_meta c4Field).optnames) ∧
      (mk_specitem c4Field .standard (field_meta c4Field).optnames).type
        = eff_field_type c4Field) :=
  ⟨(c4_union_shapes c4PosField).1 rfl rfl, (c4_union_shapes c4Field).2 rfl rfl rfl⟩

/-- Concrete field built by `arg()` with BOTH the positional marker and
explicit alternate option names. -/
def c5Field : PyField :=
  arg { helpstr := "h", optnames := ["-f", "--force"], positional := true } "x" .str

/-- C5 counterexample: a field carrying both the positional marker and
alternate names compiles without any error; it is registered as the bare
positional `["x"]` and the alternate names are silently discarded (the
stored positional metadata carries no optnames). -/
theorem c5_counterexample :
    (specitem_from_field c5Field).map (fun it => (it.kind, get_optnames it))
      = .ok (.positional, ["x"]) ∧
    (specitem_from_field c5Field).isOk = true ∧
    c5Field.metadata.map LeafMeta.optnames = some [] :=
  ⟨rfl, rfl, rfl⟩

/-- C5 (amended): for every `arg()` call with the positional marker set (and
a plain declared type), the built field stores a positional metadata entry
whose optnames are empty — any supplied alternate names are silently
discarded, not rejected — and compiles to an item addressed solely by the
field name. -/
theorem c5_positional_discards_optnames (p : ArgParams) (name : String) (ty : Ty)
    (hpos : p.positional = true) (htt : p.transform_type = none)
    (hplain : get_origin ty = none) :
    (arg p name ty).metadata.map LeafMeta.optnames = some [] ∧
    (arg p name ty).metadata.map LeafMeta.positional = some true ∧
    (specitem_from_field (arg p name ty)).map get_optnames = .ok [name] := by
  unfold arg specitem_from_field
  cases hdef : p.default <;> cases hfac : p.default_factory <;>
    simp [hpos, htt, hplain, field_meta, eff_field_type, mk_specitem,
      get_optnames, Except.map]

/-- Witness for `c5_positional_discards_optnames` at a concrete `arg()`
call combining `positional=True` with the alternate name `-f`. -/
theorem c5_witness :
    (arg { helpstr := "h", optnames := ["-f"], positional := true } "y" .int).metadata.map
        LeafMeta.optnames = some [] ∧
    (arg { helpstr := "h", optnames := ["-f"], positional := true } "y" .int).metadata.map
        LeafMeta.positional = some true ∧
    (specitem_from_field
        (arg { helpstr := "h", optnames := ["-f"], positional := true } "y" .int)).map
      get_optnames = .ok ["y"] :=
  c5_positional_discards_optnames
    { helpstr := "h", optnames := ["-f"], positional := true } "y" .int rfl rfl rfl

lemma v1_classify_not_list (f : V1.Field) (o : V1.ArgOpts)
    (h : V1.classify_field f = .ok o) (hnl : get_origin f.type ≠ some .list) :
    o.nargs = none := by
  unfold V1.classify_field at h
  by_cases h1 : (isBoolTy f.type
      && !(match f.default with | some v => isTrueVal v | none => false)) = true
  · rw [if_pos h1] at h
    cases h; rfl
  · rw [if_neg h1, if_neg hnl] at h
    by_cases h3 : get_origin f.type = some .union
    · rw [if_pos h3] at h
      by_cases h4 : (decide ((get_args f.type).length = 2)
          && containsNoneType (get_args f.type)) = true
      · rw [if_pos h4] at h
        cases h; rfl
      · rw [if_neg h4] at h
        exact Except.noConfusion h
    · rw [if_neg h3] at h
      cases h; rfl

lemma v1_classify_list (f : V1.Field) (o : V1.ArgOpts)
    (h : V1.classify_field f = .ok o) (hl : get_origin f.type = some .list) :
    o.nargs = some "+" := by
  unfold V1.classify_field at h
  have hb : isBoolTy f.type = false := by
    cases hty : f.type <;> simp_all [get_origin, isBoolTy]
  rw [hb] at h
  simp only [Bool.false_and, if_false, Bool.false_eq_true] at h
  rw [if_pos hl] at h
  cases h
  rfl

lemma v1_default_chain_nargs (f : V1.Field) (o : V1.ArgOpts) :
    (V1.apply_default_chain f o).nargs = o.nargs := by
  unfold V1.apply_default_chain
  cases f.default <;> [skip; rfl]
  cases f.default_factory <;> rfl

/-- C6 (amended): in the old-variant classifier, a metadata `nargs` override
is accepted exactly on list-typed fields — on a field whose declared type is
not a list it is a build-time `TypeError` — and on a list field the override
(including the narrowing `"+"` to `"*"`) is installed verbatim, with no
check that a default is present. -/
theorem c6_nargs_override (f : V1.Field) :
    (∀ x, f.metaNargs = some x → get_origin f.type ≠ some .list →
      ∃ e, V1.ArgOpts.from_field f = .error e) ∧
    (∀ x, f.metaNargs = some x → get_origin f.type = some .list →
      (V1.ArgOpts.from_field f).map V1.ArgOpts.nargs = .ok (some x)) := by
  constructor
  · intro x hx hnl
    unfold V1.ArgOpts.from_field
    cases hc : V1.classify_field f with
    | error e => exact ⟨e, rfl⟩
    | ok o1 =>
      have hn : (V1.apply_metadata f (V1.apply_default_chain f o1)).nargs = none := by
        have := v1_classify_not_list f o1 hc hnl
        simp [V1.apply_metadata, v1_default_chain_nargs, this]
      simp [V1.apply_nargs_override, hn, hx]
  · intro x hx hl
    unfold V1.ArgOpts.from_field
    cases hc : V1.classify_field f with
    | error e =>
      exfalso
      unfold V1.classify_field at hc
      have hb : isBoolTy f.type = false := by
        cases hty : f.type <;> simp_all [get_origin, isBoolTy]
      rw [hb] at hc
      simp only [Bool.false_and, if_false, Bool.false_eq_true] at hc
      rw [if_pos hl] at hc
      exact Except.noConfusion hc
    | ok o1 =>
      have hn : (V1.apply_metadata f (V1.apply_default_chain f o1)).nargs = some "+" := by
        have := v1_classify_list f o1 hc hl
        simp [V1.apply_metadata, v1_default_chain_nargs, this]
      simp [V1.apply_nargs_override, hn, hx, Except.map]

/-- Concrete old-variant list field narrowing `nargs` to `"*"` with no
default and no default factory. -/
def c6Field : V1.Field := { name := "xs", type := .list .int, metaNargs := some "*" }

/-- C6 counterexample: narrowing a list field to zero-or-more without any
default is NOT rejected — `from_field` succeeds, installing `nargs="*"` and
simply marking the argument required. -/
theorem c6_counterexample :
    V1.ArgOpts.from_field c6Field
      = .ok { nargs := some "*", type := some .int, required := some true } := rfl

/-- Witness for `c6_nargs_override`: an `int` field with an `nargs` override
errors; a list field with override `"3"` installs it. -/
theorem c6_witness :
    (∃ e, V1.ArgOpts.from_field { name := "n", type := .int, metaNargs := some "*" }
      = .error e) ∧
    (V1.ArgOpts.from_field
        { name := "ys", type := .list .str, metaNargs := some "3" }).map
      V1.ArgOpts.nargs = .ok (some "3") :=
  ⟨(c6_nargs_override { name := "n", type := .int, metaNargs := some "*" }).1 "*" rfl
      (fun h => Option.noConfusion h),
    (c6_nargs_override { name := "ys", type := .list .str, metaNargs := some "3" }).2
      "3" rfl rfl⟩

lemma base_required_some_true (it : SpecItem)
    (h : (base_kwargs it).required = some true) : it.default = .notSpecified := by
  unfold base_kwargs at h
  by_cases he : eqNotSpecified it.default = true
  · exact (eqNotSpecified_iff _).mp he
  · simp [he] at h

/-- C10: for every field that compiles, (a) the registration is marked
required only when the field declares neither a default nor a default
factory (`_default_from_field` gave `NotSpecified`), and (b) a non-positional
untransformed field whose declared default is `None` is registered with the
present default `None` and not required, so omitting its flag constructs
`None` rather than a missing-required-argument usage failure. -/
theorem c10_none_default (f : PyField) (it : SpecItem)
    (hok : specitem_from_field f = .ok it) :
    ((get_kwargs it).required = some true → default_from_field f = .notSpecified) ∧
    ((field_meta f).positional = false → (field_meta f).opts.transform = none →
      default_from_field f = .vnone →
      (get_kwargs it).default = some .vnone ∧
      (get_kwargs it).required ≠ some true ∧
      fieldOmittedValue it = .ok .vnone) := by
  unfold specitem_from_field at hok
  by_cases hpos : (field_meta f).positional = false
  · rw [if_pos hpos] at hok
    by_cases h1 : get_origin (eff_field_type f) = some .list
    · rw [if_pos h1] at hok
      cases hok
      constructor
      · intro hreq
        exact base_required_some_true _ hreq
      · intro _ htr hd
        refine ⟨?_, ?_, ?_⟩ <;>
          simp [get_kwargs, base_kwargs, mk_specitem, hd, eqNotSpecified,
            fieldOmittedValue, argparseOmittedValue, htr, identity_transform,
            Except.map]
    · rw [if_neg h1] at hok
      by_cases h2 : is_optional_type (eff_field_type f) = true
      · rw [if_pos h2] at hok
        cases hok
        constructor
        · intro hreq
          simp [get_kwargs, mk_specitem] at hreq
        · intro _ htr hd
          refine ⟨?_, ?_, ?_⟩ <;>
            simp [get_kwargs, base_kwargs, mk_specitem, hd, eqNotSpecified,
              fieldOmittedValue, argparseOmittedValue, htr, identity_transform,
              Except.map]
      · rw [if_neg h2] at hok
        by_cases h3 : isBoolTy (eff_field_type f) = true
        · rw [if_pos h3] at hok
          cases hok
          constructor
          · intro hreq
            simp [get_kwargs, mk_specitem] at hreq
          · intro _ htr hd
            refine ⟨?_, ?_, ?_⟩ <;>
              simp [get_kwargs, base_kwargs, mk_specitem, hd, eqNotSpecified,
                isTrueVal, fieldOmittedValue, argparseOmittedValue, htr,
                identity_transform, Except.map]
        · rw [if_neg h3] at hok
          cases hok
          constructor
          · intro hreq
            exact base_required_some_true _ hreq
          · intro _ htr hd
            refine ⟨?_, ?_, ?_⟩ <;>
              simp [get_kwargs, base_kwargs, mk_specitem, hd, eqNotSpecified,
                fieldOmittedValue, argparseOmittedValue, htr, identity_transform,
                Except.map]
  · rw [if_neg hpos] at hok
    by_cases h1 : get_origin (eff_field_type f) = some .list
    · rw [if_pos h1] at hok
      cases hok
      constructor
      · intro hreq
        simp [get_kwargs, mk_specitem] at hreq
      · intro hp _ _
        exact absurd hp hpos
    · rw [if_neg h1] at hok
      by_cases h2 : get_origin (eff_field_type f) = none
      · rw [if_pos h2] at hok
        cases hok
        constructor
        · intro hreq
          simp [get_kwargs, mk_specitem] at hreq
        · intro hp _ _
          exact absurd hp hpos
      · rw [if_neg h2] at hok
        exact Except.noConfusion hok

/-- Concrete non-positional string field whose declared default is `None`. -/
def c10Field : PyField :=
  { name := "maybe", type := .str, default := some .vnone
    metadata := some { positional := false, opts := {}, optnames := [] } }

/-- Witness for `c10_none_default` at a field defaulting to `None`: its
registration carries `default=None`, is not required, and omission
constructs `None`. -/
theorem c10_witness :
    (get_kwargs (mk_specitem c10Field .standard [])).default = some .vnone ∧
    (get_kwargs (mk_specitem c10Field .standard [])).required ≠ some true ∧
    fieldOmittedValue (mk_specitem c10Field .standard []) = .ok .vnone :=
  (c10_none_default c10Field (mk_specitem c10Field .standard []) rfl).2 rfl rfl rfl

mutual
/-- Embeds a schema dataclass (`ConfigGroup` subclass): a named, ordered
sequence of dataclass fields. -/
inductive Schema where
  | mk (name : String) (fields : List SField) : Schema

/-- Embeds one dataclass field of a schema as partitioned by
`_is_configcls_field`: a leaf field (compiled by `_specitem_from_field`) or
a nested group field (a `ConfigGroup`-typed field, or a `cfgtransform`
field whose effective class is the transform type), carrying the optional
group-level transform of `ConfigClassTransform`. -/
inductive SField where
  | leaf (f : PyField) : SField
  | group (fieldName : String) (sub : Schema) (transform : Option (Val → Val)) : SField
end

/-- Embeds `Specification` of `cfgclasses/argspec.py`: the described class
name, the specification items of the direct members, the named subspecs,
and the group transform to be applied to this specification. -/
inductive CfgSpec where
  | mk (metatype : String) (members : List SpecItem)
      (subspecs : List (String × CfgSpec)) (transform : Option (Val → Val)) : CfgSpec

/-- The described class name of a `CfgSpec`. -/
def CfgSpec.metatype : CfgSpec → String
  | .mk n _ _ _ => n

/-- The direct members of a `CfgSpec`. -/
def CfgSpec.members : CfgSpec → List SpecItem
  | .mk _ ms _ _ => ms

/-- The subspecs of a `CfgSpec`. -/
def CfgSpec.subspecs : CfgSpec → List (String × CfgSpec)
  | .mk _ _ subs _ => subs

/-- The group transform of a `CfgSpec`. -/
def CfgSpec.transform : CfgSpec → Option (Val → Val)
  | .mk _ _ _ tr => tr

/-- Embeds the members list comprehension of `Specification.from_class`:
compile every non-group field with `_specitem_from_field`, propagating the
first error. -/
def member_items : List SField → Except String (List SpecItem)
  | [] => .ok []
  | .leaf f :: rest =>
    match specitem_from_field f, member_items rest with
    | .error e, _ => .error e
    | .ok _, .error e => .error e
    | .ok it, .ok ms => .ok (it :: ms)
  | .group _ _ _ :: rest => member_items rest

mutual
/-- Embeds `Specification.from_class` of `cfgclasses/argspec.py`: compile
the leaf fields into the members list and every group field into a named
subspec (via `_spec_from_field`), recording the caller-supplied group
transform; no identity-uniqueness check of any kind is performed. -/
def from_class : Schema → Option (Val → Val) → Except String CfgSpec
  | .mk name fields, cfgtransform =>
    match member_items fields, sub_specs fields with
    | .error e, _ => .error e
    | .ok _, .error e => .error e
    | .ok ms, .ok subs => .ok (.mk name ms subs cfgtransform)

/-- Embeds the subspec dict comprehension of `Specification.from_class`
(each entry built by `_spec_from_field`). -/
def sub_specs : List SField → Except String (List (String × CfgSpec))
  | [] => .ok []
  | .leaf _ :: rest => sub_specs rest
  | .group fn sub tr :: rest =>
    match from_class sub tr, sub_specs rest with
    | .error e, _ => .error e
    | .ok _, .error e => .error e
    | .ok sp, .ok subs => .ok ((fn, sp) :: subs)
end

/-- The externally-visible identities of a list of members, in order. -/
def member_optnames : List SpecItem → List String
  | [] => []
  | it :: rest => get_optnames it ++ member_optnames rest

mutual
/-- All externally-visible identities (flag spellings and positional slots)
of a compiled tree, in registration order. -/
def all_optnames : CfgSpec → List String
  | .mk _ ms subs _ => member_optnames ms ++ all_optnames_subs subs

def all_optnames_subs : List (String × CfgSpec) → List String
  | [] => []
  | (_, sp) :: rest => all_optnames sp ++ all_optnames_subs rest
end

/-- Embeds the member dictionary comprehension of
`Specification.construct_from_namespace`: each member maps to its transform
applied to the namespace value at its dest name. -/
def member_values : List SpecItem → (String → Val) → List (String × Val)
  | [], _ => []
  | it :: rest, ns => (it.name, it.transform (ns it.name)) :: member_values rest ns

mutual
/-- Embeds `Specification.construct_from_namespace` of
`cfgclasses/argspec.py`: build the class instance from the member values and
the recursively constructed subspec instances, each passed through its
subspec transform (identity when none). -/
def construct_from_namespace : CfgSpec → (String → Val) → Val
  | .mk name ms subs _, ns => .vobj name (member_values ms ns ++ sub_values subs ns)

def sub_values : List (String × CfgSpec) → (String → Val) → List (String × Val)
  | [], _ => []
  | (fn, sp) :: rest, ns =>
    (fn, (CfgSpec.transform sp).getD identity_transform (construct_from_namespace sp ns))
      :: sub_values rest ns
end

/-- First nested schema of the colliding example: a group declaring a plain
string field named `x`. -/
def g1 : Schema := .mk "G1" [.leaf { name := "x", type := .str }]

/-- Second nested schema of the colliding example: a different group also
declaring a field named `x`. -/
def g2 : Schema := .mk "G2" [.leaf { name := "x", type := .int }]

/-- Top-level schema nesting both groups: the two leaves collide on the
flag spelling `--x`. -/
def c7Schema : Schema := .mk "Top" [.group "a" g1 none, .group "b" g2 none]

/-- C7 counterexample: the schema whose two nested groups both declare a
field `x` compiles successfully, and the compiled tree's externally-visible
identities are `["--x", "--x"]` — not pairwise distinct, and no build-time
rejection happened. -/
theorem c7_counterexample :
    (from_class c7Schema none).map all_optnames = .ok ["--x", "--x"] ∧
    ¬ (["--x", "--x"] : List String).Nodup := by
  refine ⟨?_, by simp⟩
  have hx : replace_underscores "x" = "x" := by decide
  simp [c7Schema, g1, g2, from_class, member_items, sub_specs, specitem_from_field,
    field_meta, eff_field_type, get_origin, is_optional_type, isBoolTy, get_args,
    containsNoneType, all_optnames, all_optnames_subs, member_optnames, get_optnames,
    mk_specitem, Except.map, hx]

/-- C7 (amended): compilation performs no cross-field identity check — a
schema nesting any two individually compilable groups compiles to exactly
the pair of their compilations, regardless of any identity collision
between them (collisions are left to the external engine at registration
time). -/
theorem c7_no_collision_check (name n1 n2 : String) (s1 s2 : Schema)
    (sp1 sp2 : CfgSpec)
    (h1 : from_class s1 none = .ok sp1) (h2 : from_class s2 none = .ok sp2) :
    from_class (.mk name [.group n1 s1 none, .group n2 s2 none]) none
      = .ok (.mk name [] [(n1, sp1), (n2, sp2)] none) := by
  unfold from_class
  simp [member_items, sub_specs, h1, h2]

/-- Witness for `c7_no_collision_check` at the colliding schema. -/
theorem c7_witness :
    from_class (.mk "Top" [.group "a" g1 none, .group "b" g2 none]) none
      = .ok (.mk "Top" []
          [("a", .mk "G1" [mk_specitem { name := "x", type := .str } .standard []] [] none),
           ("b", .mk "G2" [mk_specitem { name := "x", type := .int } .standard []] [] none)]
          none) :=
  c7_no_collision_check "Top" "a" "b" g1 g2 _ _ rfl rfl

mutual
/-- Embeds a constructed object as seen by the validator walk: its `dir()`
listing, in order. -/
inductive Obj where
  | mk (attrs : List ObjAttr) : Obj

/-- Embeds one attribute of a constructed object: a validator-marked bound
method (embedded by the outcome of calling it — `some msg` embeds raising
`ValueError(msg)`, `none` a normal return), a dataclass-instance attribute
(a nested constructed object), or any other attribute (not a validator, not
a dataclass; both walks pass over it). -/
inductive ObjAttr where
  | validatorAttr (outcome : Option String) : ObjAttr
  | dataclassAttr (child : Obj) : ObjAttr
  | otherAttr : ObjAttr
end

/-- Embeds the loop of `_invoke_validators` of `cfgclasses/validation.py`:
call every validator-marked attribute in `dir()` order; the first raised
`ValueError` propagates. -/
def invoke_loop : List ObjAttr → Except String Unit
  | [] => .ok ()
  | .validatorAttr (some msg) :: _ => .error msg
  | .validatorAttr none :: rest => invoke_loop rest
  | .dataclassAttr _ :: rest => invoke_loop rest
  | .otherAttr :: rest => invoke_loop rest

/-- Embeds `_invoke_validators` of `cfgclasses/validation.py`. -/
def invoke_validators : Obj → Except String Unit
  | .mk attrs => invoke_loop attrs

mutual
/-- Embeds `_validate_nested` of `cfgclasses/validation.py`: walk the
attributes in `dir()` order; on each dataclass-valued attribute invoke its
validators and recurse into it; the first raised `ValueError` propagates. -/
def validate_nested : Obj → Except String Unit
  | .mk attrs => validate_nested_loop attrs

def validate_nested_loop : List ObjAttr → Except String Unit
  | [] => .ok ()
  | .dataclassAttr c :: rest =>
    match invoke_validators c with
    | .error m => .error m
    | .ok _ =>
      match validate_nested c with
      | .error m => .error m
      | .ok _ => validate_nested_loop rest
  | .validatorAttr _ :: rest => validate_nested_loop rest
  | .otherAttr :: rest => validate_nested_loop rest
end

/-- Embeds `validate_post_argparse` of `cfgclasses/validation.py`: run the
top-level object validators then the nested walk; a raised `ValueError` is
caught and surfaced as `parser.error(message)` — the uniform usage-failure
channel, embedded here as the `.error` result. -/
def validate_post_argparse (o : Obj) : Except String Unit :=
  match invoke_validators o with
  | .error m => .error m
  | .ok _ => validate_nested o

/-- The outcomes of the validator-marked attributes of one object, in
`dir()` order. -/
def top_validators : Obj → List (Option String)
  | .mk attrs =>
    attrs.filterMap (fun a =>
      match a with
      | .validatorAttr r => some r
      | _ => none)

mutual
/-- The outcomes of every validator on every object strictly below one
object (any nesting depth), in the order the nested walk reaches them. -/
def nested_validators : Obj → List (Option String)
  | .mk attrs => nested_validators_loop attrs

def nested_validators_loop : List ObjAttr → List (Option String)
  | [] => []
  | .dataclassAttr c :: rest =>
    top_validators c ++ nested_validators c ++ nested_validators_loop rest
  | .validatorAttr _ :: rest => nested_validators_loop rest
  | .otherAttr :: rest => nested_validators_loop rest
end

/-- The outcomes of every validator reachable from a constructed object,
in invocation order. -/
def all_validators (o : Obj) : List (Option String) :=
  top_validators o ++ nested_validators o

/-- Reference semantics of a validator sequence: run outcomes left to
right, short-circuiting at the first failure. -/
def run_validators : List (Option String) → Except String Unit
  | [] => .ok ()
  | none :: rest => run_validators rest
  | some msg :: _ => .error msg

lemma run_validators_append (l1 l2 : List (Option String)) :
    run_validators (l1 ++ l2) =
      match run_validators l1 with
      | .ok _ => run_validators l2
      | .error m => .error m := by
  induction l1 with
  | nil => simp [run_validators]
  | cons hd tl ih =>
    cases hd with
    | none => simpa [run_validators] using ih
    | some m => simp [run_validators]

lemma invoke_loop_eq (attrs : List ObjAttr) :
    invoke_loop attrs = run_validators (attrs.filterMap (fun a =>
      match a with
      | .validatorAttr r => some r
      | _ => none)) := by
  induction attrs with
  | nil => rfl
  | cons hd tl ih =>
    cases hd with
    | validatorAttr r =>
      cases r with
      | none => simpa [invoke_loop, run_validators] using ih
      | some m => simp [invoke_loop, run_validators]
    | dataclassAttr c => simpa [invoke_loop] using ih
    | otherAttr => simpa [invoke_loop] using ih

lemma invoke_validators_eq (o : Obj) :
    invoke_validators o = run_validators (top_validators o) := by
  cases o with
  | mk attrs => simpa [invoke_validators, top_validators] using invoke_loop_eq attrs

mutual
theorem validate_nested_eq (o : Obj) :
    validate_nested o = run_validators (nested_validators o) :=
  match o with
  | .mk attrs => by
    rw [validate_nested, nested_validators]
    exact validate_nested_loop_eq attrs

theorem validate_nested_loop_eq (l : List ObjAttr) :
    validate_nested_loop l = run_validators (nested_validators_loop l) :=
  match l with
  | [] => rfl
  | .dataclassAttr c :: rest => by
    rw [validate_nested_loop, nested_validators_loop]
    rw [run_validators_append, run_validators_append]
    rw [← invoke_validators_eq, ← validate_nested_eq c]
    cases invoke_validators c with
    | error m => rfl
    | ok _ =>
      cases validate_nested c with
      | error m => rfl
      | ok _ => exact validate_nested_loop_eq rest
  | .validatorAttr r :: rest => by
    rw [validate_nested_loop, nested_validators_loop]
    exact validate_nested_loop_eq rest
  | .otherAttr :: rest => by
    rw [validate_nested_loop, nested_validators_loop]
    exact validate_nested_loop_eq rest
end

lemma run_validators_ok_iff (l : List (Option String)) :
    run_validators l = .ok () ↔ ∀ r ∈ l, r = none := by
  induction l with
  | nil => simp [run_validators]
  | cons hd tl ih =>
    cases hd with
    | none => simpa [run_validators] using ih
    | some m => simp [run_validators]

/-- C8: the validation pass is exactly the left-to-right, short-circuiting
run of every validator on every object reachable in the constructed graph
(any nesting depth): it succeeds precisely when all of them do, and
otherwise surfaces the first failing validator's message through the
usage-failure channel (`parser.error`), modelled as the `.error` result —
never as an uncaught fault. -/
theorem c8_validation_pass (o : Obj) :
    validate_post_argparse o = run_validators (all_validators o) ∧
    (validate_post_argparse o = .ok () ↔ ∀ r ∈ all_validators o, r = none) := by
  have heq : validate_post_argparse o = run_validators (all_validators o) := by
    unfold validate_post_argparse all_validators
    rw [run_validators_append, invoke_validators_eq, validate_nested_eq]
    cases run_validators (top_validators o) with
    | error m => rfl
    | ok _ => rfl
  exact ⟨heq, by rw [heq]; exact run_validators_ok_iff _⟩

/-- Concrete object graph: a top object with one passing validator and a
nested object (below one skipped attribute) whose validator fails. -/
def c8Obj : Obj :=
  .mk [.validatorAttr none, .otherAttr,
       .dataclassAttr (.mk [.validatorAttr (some "anum must be >= 0")])]

/-- Witness for `c8_validation_pass` at a concrete two-level object graph. -/
theorem c8_witness :
    validate_post_argparse c8Obj = run_validators (all_validators c8Obj) ∧
    (validate_post_argparse c8Obj = .ok () ↔ ∀ r ∈ all_validators c8Obj, r = none) :=
  c8_validation_pass c8Obj

/-- Embeds the namespace returned by the external engine for a parse with
submodes: `submode_name` is set exactly when a submode token was consumed
(the engine's subparser `set_defaults(submode_name=name)`), and `vals` is
the flat dest-to-value map. -/
structure SubNamespace where
  submode_name : Option String
  vals : String → Val

/-- The two disjoint failure channels of a parse call: a usage failure
(`parser.error`, exit status 2) or an internal fault (an uncaught raised
exception). -/
inductive CallError where
  | usage (msg : String) : CallError
  | internal (msg : String) : CallError

/-- Embeds the dictionary lookup `submode_specs[namespace.submode_name]`. -/
def lookup_spec : List (String × CfgSpec) → String → Option CfgSpec
  | [], _ => none
  | (n, sp) :: rest, nm => if n = nm then some sp else lookup_spec rest nm

/-- Embeds `parse_args_with_submodes` of `cfgclasses/configclass.py` from
the point the external engine has produced the namespace: an empty submodes
mapping is a raised `ValueError` (internal); a namespace without
`submode_name` is `parser.error("No submode selected")` (usage); otherwise
the top-level and the selected submode's instances are reconstructed and
each passed through the validation pass (`validate` embeds
`validate_post_argparse`; `some msg` is a failed pass, surfacing as
`parser.error(msg)`), and the pair is returned. -/
def parse_args_with_submodes (spec : CfgSpec) (submodes : List (String × CfgSpec))
    (validate : Val → Option String) (ns : SubNamespace) :
    Except CallError (Val × Val) :=
  if submodes.isEmpty then
    .error (.internal "ValueError: cannot parse args with submodes with no submodes")
  else
    match ns.submode_name with
    | none => .error (.usage "No submode selected")
    | some nm =>
      match lookup_spec submodes nm with
      | none => .error (.internal ("KeyError: " ++ nm))
      | some subspec =>
        let toplvlcfg := construct_from_namespace spec ns.vals
        let submodecfg := construct_from_namespace subspec ns.vals
        match validate toplvlcfg with
        | some m => .error (.usage m)
        | none =>
          match validate submodecfg with
          | some m => .error (.usage m)
          | none => .ok (toplvlcfg, submodecfg)

/-- C9: with a non-empty set of declared submodes, a parse whose argv
selected no submode token always ends in the usage failure
"No submode selected" (never a default-selected submode, never an internal
fault); and a parse that selected exactly one valid submode name, with both
reconstructed instances passing validation, returns the pair of the
reconstructed top-level instance and the selected submode's instance. -/
theorem c9_submode_selection (spec : CfgSpec) (submodes : List (String × CfgSpec))
    (validate : Val → Option String) (ns : SubNamespace)
    (hne : submodes ≠ []) :
    (ns.submode_name = none →
      parse_args_with_submodes spec submodes validate ns
        = .error (.usage "No submode selected")) ∧
    (∀ nm subspec, ns.submode_name = some nm →
      lookup_spec submodes nm = some subspec →
      validate (construct_from_namespace spec ns.vals) = none →
      validate (construct_from_namespace subspec ns.vals) = none →
      parse_args_with_submodes spec submodes validate ns
        = .ok (construct_from_namespace spec ns.vals,
               construct_from_namespace subspec ns.vals)) := by
  have hne' : submodes.isEmpty = false := by
    cases submodes with
    | nil => exact absurd rfl hne
    | cons hd tl => rfl
  constructor
  · intro hnone
    unfold parse_args_with_submodes
    rw [hne', hnone]
    rfl
  · intro nm subspec hsel hlook hv1 hv2
    unfold parse_args_with_submodes
    rw [hne', hsel]
    simp only [Bool.false_eq_true, if_false, hlook]
    rw [hv1, hv2]

/-- Concrete single-item submodes mapping used as witness input. -/
def c9Submodes : List (String × CfgSpec) := [("a", .mk "SubmodeA" [] [] none)]

/-- Concrete top-level specification used as witness input. -/
def c9Top : CfgSpec := .mk "Top" [] [] none

/-- Witness for `c9_submode_selection`: with one declared submode, the
namespace without a submode token yields the usage failure, and the
namespace selecting submode "a" yields the reconstructed pair. -/
theorem c9_witness :
    parse_args_with_submodes c9Top c9Submodes (fun _ => none)
        (SubNamespace.mk none (fun _ => .vnone))
      = .error (.usage "No submode selected") ∧
    parse_args_with_submodes c9Top c9Submodes (fun _ => none)
        (SubNamespace.mk (some "a") (fun _ => .vnone))
      = .ok (construct_from_namespace c9Top (fun _ => .vnone),
             construct_from_namespace (.mk "SubmodeA" [] [] none) (fun _ => .vnone)) :=
  ⟨(c9_submode_selection c9Top c9Submodes (fun _ => none)
      (SubNamespace.mk none (fun _ => .vnone)) (fun h => nomatch h)).1 rfl,
    (c9_submode_selection c9Top c9Submodes (fun _ => none)
      (SubNamespace.mk (some "a") (fun _ => .vnone)) (fun h => nomatch h)).2
      "a" (.mk "SubmodeA" [] [] none) rfl rfl rfl rfl⟩
